import Mathlib

set_option linter.unusedVariables false

/-!
Shallow embedding of `src/handle_digital_ingest_notifications.py`
(RockefellerArchiveCenter/digital_ingest_notifications).

External collaborators (the SSM parameter store, the zodiac HTTP API and
the SNS publish call) are modelled as explicit oracle arguments where
the code actually consults them:
* `freshId` is the string `construct_event_id()` (a `uuid.uuid4()`) would
  produce on this invocation;
* `publishErr` is the outcome of the SNS `client.publish` call
  (`none` means success);
* the configuration dict computed by `get_config` is passed to
  `lambda_handler` as a parameter (line 158 of the source).
Side effects (HTTP requests, SNS publishes) are reified as an `Effect`
trace returned by each operation, in program order; Python exceptions
are modelled with `Except PyErr`. Logging calls are not modelled.

Note that `matching_events` (lines 113-121) calls the three-parameter
`send_http_request` with only two arguments, so in the source every call
to it — and with it every call to `update_events` and every run of
`lambda_handler` — raises `TypeError` before any HTTP request is made;
the embedding models that error path faithfully, so the code after those
calls is translated as unreachable dead code.
-/

deriving instance DecidableEq for Except

/-- Python `s.rstrip("/")`: remove every trailing `/` character. -/
def rstripSlash (s : String) : String :=
  String.mk ((s.data.reverse.dropWhile (fun c => c == '/')).reverse)

/-- Python `str.split("/")` on the character list of a parameter name:
`[] ↦ [[]]` (Python `"".split("/") == [""]`), and each `/` starts a new
segment. -/
def splitOnSlash : List Char → List (List Char)
  | [] => [[]]
  | c :: rest =>
    if c == '/' then
      [] :: splitOnSlash rest
    else
      match splitOnSlash rest with
      | [] => [[c]]
      | seg :: segs => (c :: seg) :: segs

/-- `param.get('Name').split("/")` followed by indexing its last element
(source lines 51-53). -/
def lastSegment (name : String) : String :=
  String.mk ((splitOnSlash name.data).reverse.headD [])

/-- One SNS message attribute, e.g. `attributes['package_id']`; only its
`Value` entry is ever read by the handler, so the other entries of the
attribute dict are not modelled. -/
structure Attr where
  Value : String
deriving DecidableEq

/-- The `MessageAttributes` mapping of the first inbound record
(source line 160). `package_id` and `service` are always read as
`['...']['Value']`; `outcome` and `package_data` may be absent
(`attributes.get(...)` is used for them in places). -/
structure Attributes where
  package_id : Attr
  service : Attr
  outcome : Option Attr
  package_data : Option Attr
deriving DecidableEq

/-- One event object of the JSON array the zodiac API would return for
`GET {base}/packages/{package_id}/events`. -/
structure Event where
  outcome : String
  service : String
  package : String
  identifier : String
deriving DecidableEq

/-- A Python dict with string keys and values (the configuration);
later assignments overwrite earlier ones. -/
abbrev Config := List (String × String)

/-- A Python value as far as this handler distinguishes them: a plain
string, or a whole message-attribute dict. The distinction exists
because `update_events` (lines 81-84) passes `attributes['package_id']`
and `attributes['service']` themselves — not their `['Value']` — to
`matching_events`, while `lambda_handler` (lines 163-167) passes the
`['Value']` strings. -/
inductive PyVal where
  | str : String → PyVal
  | attrDict : Attr → PyVal
deriving DecidableEq

/-- Python `str()` as applied by f-string interpolation. The exact
rendering of a dict is immaterial to every claim; all that matters is
that it does not depend on the configuration. -/
def PyVal.pyStr : PyVal → String
  | .str s => s
  | .attrDict a => "\x7bValue: " ++ a.Value ++ "\x7d"

/-- Python exceptions as far as the handler distinguishes them:
`except KeyError` (line 149) catches exactly the `keyError` variant.
`typeError` covers the call-binding failure of a function invoked with
too few arguments. -/
inductive PyErr where
  | keyError : String → PyErr
  | typeError : String → PyErr
  | exception : String → PyErr
  | httpError : Nat → PyErr
deriving DecidableEq

def PyErr.isKeyError : PyErr → Bool
  | .keyError _ => true
  | _ => false

/-- Reified side effects, in program order. -/
inductive Effect where
  | getRequest : String → Effect
  | postPackage : (url package_id : String) → (package_data : Option String) → Effect
  | postEvent : (url outcome service package identifier : String) → Effect
  | publish : (topic message package_id requested_status service : String) → Effect
deriving DecidableEq

/-- `NEXT_SERVICE_MAP` (source lines 18-21). -/
def NEXT_SERVICE_MAP : List (String × String) :=
  [("ursa_major", "fornax"), ("webhook", "aquarius")]

/-- One HTTP response: a status code and the JSON body that
`resp.json()` would parse (an event array, for the GET this code
attempts in `matching_events`). -/
structure HttpResp where
  status : Nat
  jsonBody : List Event
deriving DecidableEq

/-- `send_http_request` (lines 103-110). `resp.raise_for_status()`
raises for any 4xx/5xx status; afterwards the function body ends with no
`return` statement, so on success Python returns `None` — the response
body is discarded for every method, GET included. (`matching_events`
nevertheless expects the parsed body back, and moreover calls this
three-parameter function with only two arguments; see C7.) -/
def send_http_request (resp : HttpResp) (url method : String)
    (data : Option (List (String × String))) : Except PyErr (Option (List Event)) :=
  if 400 ≤ resp.status ∧ resp.status < 600 then
    Except.error (PyErr.httpError resp.status)
  else
    Except.ok none

/-- The `TypeError` Python raises when `matching_events` (lines 115-116)
calls the three-parameter `send_http_request` with only two arguments.
The call fails at argument binding, before the function body runs, so no
HTTP request is made. -/
def missingDataArg : PyErr :=
  PyErr.typeError "send_http_request() missing 1 required positional argument: data"

/-- `matching_events` (lines 113-121). Lines 115-116 first evaluate the
URL f-string, then call `send_http_request(url, 'get')` — two arguments
for a three-parameter function — so Python raises `TypeError` at the
call, before any HTTP request is issued. The function therefore
unconditionally raises, performing no effect; the filter on lines
117-121 is dead code (and even with the argument supplied,
`send_http_request` returns `None`, which the comprehension could not
iterate — see C7 and C8). No reachable code reads `service_name` or
`outcome`. -/
def matching_events (package_id service_name : PyVal) (baseurl : String)
    (outcome : Option PyVal) : Except PyErr (List Effect × List Event) :=
  let url := baseurl ++ "/packages/" ++ package_id.pyStr ++ "/events"
  Except.error missingDataArg

/-- `update_package` (lines 63-73). `attributes.get('package_data')` is
truthy exactly when the attribute is present; its `Value` (a JSON text,
parsed by `json.loads` before posting) is carried verbatim, the parse
being external to the handler's logic. A missing `ZODIAC_BASEURL`
key raises `KeyError` at line 71. -/
def update_package (attributes : Attributes) (config : Config) :
    Except PyErr (List Effect) :=
  match config.lookup "ZODIAC_BASEURL" with
  | none => Except.error (PyErr.keyError "ZODIAC_BASEURL")
  | some base =>
    Except.ok [Effect.postPackage (rstripSlash base ++ "/packages")
      attributes.package_id.Value (attributes.package_data.map Attr.Value)]

/-- `update_events` (lines 80-100). The call at lines 81-84 first
evaluates its arguments — so a missing `ZODIAC_BASEURL` raises
`KeyError` — and then invokes `matching_events`, which unconditionally
raises `TypeError` before any HTTP request (see `matching_events`).
Everything after line 84 — the length check, the event payload, the
identifier choice (`package_events[0]['identifier']` when exactly one
match, else `construct_event_id()`, the `freshId` oracle), the POST and
the more-than-one-match `Exception` of lines 98-100 — is translated
below but unreachable; the function never performs an effect. Note
the source passes the attribute dicts (not their `['Value']` strings)
to `matching_events`. -/
def update_events (attributes : Attributes) (config : Config)
    (freshId : String) : Except PyErr (List Effect) :=
  match config.lookup "ZODIAC_BASEURL" with
  | none => Except.error (PyErr.keyError "ZODIAC_BASEURL")
  | some base =>
    match matching_events (PyVal.attrDict attributes.package_id)
        (PyVal.attrDict attributes.service) (rstripSlash base) none with
    | Except.error e => Except.error e
    | Except.ok r =>
      if r.2.length ≤ 1 then
        match attributes.outcome with
        | none => Except.error (PyErr.keyError "outcome")
        | some oc =>
          let identifier := match r.2 with
            | [e] => e.identifier
            | _ => freshId
          Except.ok (r.1 ++ [Effect.postEvent (rstripSlash base ++ "/events")
            oc.Value attributes.service.Value attributes.package_id.Value identifier])
      else
        Except.error (PyErr.exception
          ("Got more than one matching event for package "
            ++ (PyVal.attrDict attributes.package_id).pyStr
            ++ ", found " ++ toString r.2.length))

/-- `send_next_service_message` (lines 124-151). The whole body sits in
one `try` whose `except KeyError` clause logs and returns: it catches
the `NEXT_SERVICE_MAP[current_service]` miss, but also a missing
`SERVICE_START_SNS_TOPIC` configuration key (line 131), and any
`KeyError` the publish step might raise; every other error propagates.
`publishErr` is the outcome of `client.publish` (client creation
included): `none` means the publish succeeds. -/
def send_next_service_message (current_service package_id : String)
    (config : Config) (publishErr : Option PyErr) : Except PyErr (List Effect) :=
  match NEXT_SERVICE_MAP.lookup current_service with
  | none => Except.ok []
  | some next_service =>
    match config.lookup "SERVICE_START_SNS_TOPIC" with
    | none => Except.ok []
    | some topic =>
      match publishErr with
      | some e => if e.isKeyError then Except.ok [] else Except.error e
      | none =>
        Except.ok [Effect.publish topic
          ("Start service " ++ next_service ++ " for package " ++ package_id)
          package_id "START" next_service]

/-- `lambda_handler` (lines 154-179). `config` is the dict produced by
`get_config` (line 158); `attributes` is
`event['Records'][0]['Sns']['MessageAttributes']` (line 160). The
duplicate-check call at lines 163-168 first evaluates its arguments — a
missing `ZODIAC_BASEURL` raises `KeyError` at line 166, a missing
`outcome` attribute raises `KeyError` at line 167 — and then invokes
`matching_events`, which unconditionally raises `TypeError` before any
HTTP request. Every invocation therefore fails with an unhandled
exception before any effect; both the no-duplicate branch (lines
169-176) and the duplicate branch (line 178) are translated below but
unreachable. -/
def lambda_handler (attributes : Attributes) (config : Config)
    (freshId : String) (publishErr : Option PyErr) : Except PyErr (List Effect) :=
  match config.lookup "ZODIAC_BASEURL" with
  | none => Except.error (PyErr.keyError "ZODIAC_BASEURL")
  | some base =>
    match attributes.outcome with
    | none => Except.error (PyErr.keyError "outcome")
    | some oc =>
      match matching_events (PyVal.str attributes.package_id.Value)
          (PyVal.str attributes.service.Value) (rstripSlash base)
          (some (PyVal.str oc.Value)) with
      | Except.error e => Except.error e
      | Except.ok r =>
        if r.2.length == 0 then
          match update_package attributes config with
          | Except.error e => Except.error e
          | Except.ok pkgEffs =>
            match update_events attributes config freshId with
            | Except.error e => Except.error e
            | Except.ok evEffs =>
              if attributes.outcome.map Attr.Value == some "SUCCESS" then
                match send_next_service_message attributes.service.Value
                    attributes.package_id.Value config publishErr with
                | Except.error e => Except.error e
                | Except.ok pubEffs => Except.ok (r.1 ++ pkgEffs ++ evEffs ++ pubEffs)
              else
                Except.ok (r.1 ++ pkgEffs ++ evEffs)
        else
          Except.ok r.1

/-- Python dict assignment `configuration[section_name] = value`. -/
def dictInsert (acc : Config) (k v : String) : Config :=
  if acc.any (fun p => p.1 == k) then
    acc.map (fun p => if p.1 == k then (k, v) else p)
  else
    acc ++ [(k, v)]

/-- The `for param in param_details.get('Parameters', [])` loop of
`get_config` (lines 50-54). A parameter whose `Name` entry is missing
makes `param.get('Name').split("/")` raise (`None` has no `split`); the
surrounding `except BaseException` plus `finally: return configuration`
then yield whatever was accumulated so far. -/
def get_config_loop (configuration : Config) :
    List (Option String × String) → Config
  | [] => configuration
  | (none, _) :: _ => configuration
  | (some name, value) :: rest =>
      get_config_loop (dictInsert configuration (lastSegment name) value) rest

/-- `get_config` (lines 32-60). `ssmResp` is the outcome of creating the
SSM client and calling `get_parameters_by_path`: an error there is
caught by `except BaseException` before anything is accumulated, and
`finally: return configuration` returns the still-empty dict. The
function is total: it never propagates an exception. -/
def get_config (ssmResp : Except PyErr (List (Option String × String))) : Config :=
  match ssmResp with
  | Except.error _ => []
  | Except.ok params => get_config_loop [] params

/-- The configuration mapping as §4.1 of the spec describes it, for the
refinement claim C9: the fetched parameters keyed by the final
`/`-separated segment of their names. -/
def get_config_spec (params : List (String × String)) : Config :=
  params.foldl (fun acc p => dictInsert acc (lastSegment p.1) p.2) []

/-- A string of `n` trailing-slash characters, for C10. -/
def mkSlashes (n : Nat) : String :=
  String.mk (List.replicate n '/')

/-! Helper lemmas (shared; none of these is a claim theorem). -/

lemma lookup_head (k b : String) (rest : Config) :
    List.lookup k ((k, b) :: rest) = some b := by
  simp [List.lookup]

lemma lookup_topic_zodiac (b : String) (rest : Config) :
    List.lookup "SERVICE_START_SNS_TOPIC" (("ZODIAC_BASEURL", b) :: rest)
      = List.lookup "SERVICE_START_SNS_TOPIC" rest := by
  have h : ("SERVICE_START_SNS_TOPIC" == "ZODIAC_BASEURL") = false := by decide
  simp [List.lookup, h]

lemma dropWhile_replicate_slash (k : Nat) (l : List Char) :
    List.dropWhile (fun c => c == '/') (List.replicate k '/' ++ l)
      = List.dropWhile (fun c => c == '/') l := by
  induction k with
  | zero => rfl
  | succ k ih => simp [List.replicate_succ, List.dropWhile_cons, ih]

lemma rstripSlash_mkSlashes (s : String) (k : Nat) :
    rstripSlash (s ++ mkSlashes k) = rstripSlash s := by
  cases s with
  | mk l =>
    show String.mk (((l ++ List.replicate k '/').reverse.dropWhile
        (fun c => c == '/')).reverse)
      = String.mk ((l.reverse.dropWhile (fun c => c == '/')).reverse)
    rw [List.reverse_append, List.reverse_replicate, dropWhile_replicate_slash]

lemma update_package_base_congr (b1 b2 : String) (rest : Config)
    (h : rstripSlash b1 = rstripSlash b2) :
    ∀ attributes : Attributes,
      update_package attributes (("ZODIAC_BASEURL", b1) :: rest)
        = update_package attributes (("ZODIAC_BASEURL", b2) :: rest) := by
  intro attributes
  simp only [update_package, lookup_head, h]

lemma update_events_base_congr (b1 b2 : String) (rest : Config)
    (h : rstripSlash b1 = rstripSlash b2) :
    ∀ (attributes : Attributes) (freshId : String),
      update_events attributes (("ZODIAC_BASEURL", b1) :: rest) freshId
        = update_events attributes (("ZODIAC_BASEURL", b2) :: rest) freshId := by
  intro attributes freshId
  simp only [update_events, lookup_head, h]

lemma send_next_base_congr (b1 b2 : String) (rest : Config) :
    ∀ (current_service package_id : String) (publishErr : Option PyErr),
      send_next_service_message current_service package_id
          (("ZODIAC_BASEURL", b1) :: rest) publishErr
        = send_next_service_message current_service package_id
          (("ZODIAC_BASEURL", b2) :: rest) publishErr := by
  intro current_service package_id publishErr
  simp only [send_next_service_message, lookup_topic_zodiac]

lemma lambda_handler_base_congr (b1 b2 : String) (rest : Config)
    (h : rstripSlash b1 = rstripSlash b2) :
    ∀ (attributes : Attributes) (freshId : String) (publishErr : Option PyErr),
      lambda_handler attributes (("ZODIAC_BASEURL", b1) :: rest)
          freshId publishErr
        = lambda_handler attributes (("ZODIAC_BASEURL", b2) :: rest)
          freshId publishErr := by
  intro attributes freshId publishErr
  simp only [lambda_handler, lookup_head, h,
    update_package_base_congr b1 b2 rest h,
    update_events_base_congr b1 b2 rest h,
    send_next_base_congr b1 b2 rest]

lemma get_config_loop_eq_foldl (l : List (String × String)) :
    ∀ acc : Config,
      get_config_loop acc (l.map (fun p => (some p.1, p.2)))
        = l.foldl (fun acc p => dictInsert acc (lastSegment p.1) p.2) acc := by
  induction l with
  | nil => intro acc; rfl
  | cons p t ih => intro acc; simp only [List.map, get_config_loop, List.foldl, ih]

lemma get_config_loop_partial (l : List (String × String)) :
    ∀ (acc : Config) (v : String) (rest : List (Option String × String)),
      get_config_loop acc (l.map (fun p => (some p.1, p.2)) ++ (none, v) :: rest)
        = l.foldl (fun acc p => dictInsert acc (lastSegment p.1) p.2) acc := by
  induction l with
  | nil => intro acc v rest; rfl
  | cons p t ih =>
    intro acc v rest
    simp only [List.map, List.cons_append, get_config_loop, List.foldl]
    exact ih _ v rest

/-! Claim theorems. -/

/-- Claim C7: claimed, for every successful GET made through
`send_http_request`, the parsed JSON response body is returned to the
caller. The code disagrees: the function body ends with no `return`, so
a successful GET yields `None` and the parsed body is discarded — here a
200 response whose body holds one event still returns nothing. (In the
source, `matching_events` additionally calls the three-parameter
`send_http_request` with only two arguments.) The repository tests mock
`send_http_request` to return the parsed body, so the claim matches the
intent and the code is the slip. -/
theorem C7_get_discards_body :
    send_http_request ⟨200, [⟨"SUCCESS", "s1", "p1", "id1"⟩]⟩
        "https://z/packages/p1/events" "get" none = Except.ok none
      ∧ (⟨200, [⟨"SUCCESS", "s1", "p1", "id1"⟩]⟩ : HttpResp).jsonBody ≠ [] := by
  constructor
  · decide
  · decide

/-- Claim C2: claimed, with zero or one existing events for (package_id,
service), `update_events` issues exactly one event POST, reusing the
existing identifier when there is one. Evaluating the code at such an
input: `update_events` raises `TypeError` at `matching_events`'s
two-argument call to the three-parameter `send_http_request`, before any
HTTP request — it issues no GET and no POST at all, whatever the store
holds. (Even with the call repaired, lines 82-83 pass the attribute
dicts instead of their `Value` strings, so an existing event's
identifier still could not be found and reused.) The spec (§4.4) and
the tests `test_create_event` / `test_update_event` assert the claimed
single-POST behaviour, so the claim is the intent and the code the
slip. -/
theorem C2_update_events_raises_no_post :
    update_events ⟨⟨"p1"⟩, ⟨"s1"⟩, some ⟨"SUCCESS"⟩, none⟩
        [("ZODIAC_BASEURL", "https://z")] "fresh-id"
      = Except.error missingDataArg := by
  decide

/-- Claim C3: claimed, with two or more existing events for (package_id,
service), `update_events` raises a fatal error naming the package and
the count, and issues no POST. Evaluating the code: whatever the store
holds — two matching events included — `update_events` raises the
`TypeError` from `matching_events`'s two-argument `send_http_request`
call before any HTTP request; it does issue no POST, but the error is
the argument-binding `TypeError`, raised on every input, not the
data-integrity `Exception` of lines 98-100 naming the package and
count, which is unreachable. -/
theorem C3_integrity_branch_unreachable :
    update_events ⟨⟨"p2"⟩, ⟨"s2"⟩, some ⟨"FAILURE"⟩, none⟩
        [("ZODIAC_BASEURL", "https://z")] "fresh-id"
      = Except.error missingDataArg := by
  decide

/-- Claim C6 counterexample: `current_service` is `ursa_major` (present
in the next-service map) and the configuration lacks
`SERVICE_START_SNS_TOPIC`; the claim says this failure propagates and
fails the invocation, but `send_next_service_message` returns normally
with no publish and no error — the `KeyError` from
`config['SERVICE_START_SNS_TOPIC']` is caught by the function's own
`except KeyError` clause. -/
theorem C6_missing_topic_swallowed :
    send_next_service_message "ursa_major" "p1" [] none = Except.ok [] := by
  decide

/-- Claim C1: claimed, an inbound message whose (package_id, service,
outcome) triple already has a matching event is a logged no-op with zero
downstream writes. Evaluating the code at such an input: the handler
raises `TypeError` inside `matching_events` (two-argument call to the
three-parameter `send_http_request`) before even the duplicate-check
GET; it indeed performs no downstream write, but it never logs
"duplicate" and the invocation fails instead of completing as a no-op.
The spec (§4.7 step 5) and `test_success_notification` (which mocks
`matching_events` to return a match and asserts a clean run with no
update calls) show the claim is the intent and the code the slip. -/
theorem C1_handler_crashes_before_duplicate_check :
    lambda_handler ⟨⟨"p1"⟩, ⟨"s1"⟩, some ⟨"SUCCESS"⟩, none⟩
        [("ZODIAC_BASEURL", "https://z")] "f1" none
      = Except.error missingDataArg := by
  decide

/-- Claim C4: claimed, the next-service trigger runs if and only if the
duplicate check found zero matches and the declared outcome is exactly
`SUCCESS`. Evaluating the code at a fresh `SUCCESS` message for a
mapped service (a zero-match input on which the claim requires the
trigger to run): the handler raises `TypeError` at the line-163
duplicate check, before any HTTP request or publish — the trigger is
never invoked on any input. `test_success_notification` (mocking the
broken `matching_events`) asserts the trigger runs exactly then, so the
claim is the intent and the code the slip. -/
theorem C4_trigger_never_reached :
    lambda_handler ⟨⟨"p1"⟩, ⟨"ursa_major"⟩, some ⟨"SUCCESS"⟩, none⟩
        [("ZODIAC_BASEURL", "https://z"), ("SERVICE_START_SNS_TOPIC", "arn:t")]
        "f1" none
      = Except.error missingDataArg := by
  decide

/-- Claim C5: `send_next_service_message` with a service absent from
`NEXT_SERVICE_MAP` performs zero publishes and returns normally, whatever
the configuration or the publish oracle; with a mapped service, a
configured topic and a successful publish it performs exactly one
publish, to that topic, carrying the three message attributes
`package_id`, `requested_status = START` and `service = <next>`. -/
theorem C5_next_service_trigger (current_service package_id : String)
    (config : Config) (publishErr : Option PyErr) :
    (NEXT_SERVICE_MAP.lookup current_service = none →
      send_next_service_message current_service package_id config publishErr
        = Except.ok []) ∧
    (∀ next topic : String,
      NEXT_SERVICE_MAP.lookup current_service = some next →
      config.lookup "SERVICE_START_SNS_TOPIC" = some topic →
      publishErr = none →
      send_next_service_message current_service package_id config publishErr
        = Except.ok [Effect.publish topic
            ("Start service " ++ next ++ " for package " ++ package_id)
            package_id "START" next]) := by
  constructor
  · intro h
    simp only [send_next_service_message, h]
  · intro next topic hnext htopic hpub
    simp only [send_next_service_message, hnext, htopic, hpub]

theorem C5_witness :
    send_next_service_message "ursa_major" "p1"
        [("SERVICE_START_SNS_TOPIC", "arn:t")] none
      = Except.ok [Effect.publish "arn:t"
          ("Start service " ++ "fornax" ++ " for package " ++ "p1")
          "p1" "START" "fornax"] :=
  (C5_next_service_trigger "ursa_major" "p1"
      [("SERVICE_START_SNS_TOPIC", "arn:t")] none).2
    "fornax" "arn:t" (by decide) (by decide) rfl

/-- Claim C6 (amended): for a service present in the next-service map,
an error raised by the publish step propagates uncaught unless it is a
`KeyError`; in particular the `KeyError` from a missing
`SERVICE_START_SNS_TOPIC` configuration key is caught by the function's
`except KeyError` clause, which logs and returns normally with no
publish instead of failing the invocation. -/
theorem C6_publish_failure_propagates (current_service next package_id : String)
    (config : Config) (e : PyErr)
    (hnext : NEXT_SERVICE_MAP.lookup current_service = some next)
    (hkey : e.isKeyError = false) :
    (config.lookup "SERVICE_START_SNS_TOPIC" = none →
      send_next_service_message current_service package_id config (some e)
        = Except.ok []) ∧
    (∀ topic : String, config.lookup "SERVICE_START_SNS_TOPIC" = some topic →
      send_next_service_message current_service package_id config (some e)
        = Except.error e) := by
  constructor
  · intro h
    simp only [send_next_service_message, hnext, h]
  · intro topic htopic
    simp [send_next_service_message, hnext, htopic, hkey]

theorem C6_witness :
    send_next_service_message "ursa_major" "p1"
        [("SERVICE_START_SNS_TOPIC", "arn:t")]
        (some (PyErr.exception "publish failed"))
      = Except.error (PyErr.exception "publish failed") :=
  (C6_publish_failure_propagates "ursa_major" "fornax" "p1"
      [("SERVICE_START_SNS_TOPIC", "arn:t")] (PyErr.exception "publish failed")
      (by decide) rfl).2 "arn:t" (by decide)

/-- Claim C8: claimed, `matching_events` returns exactly the events
whose service (and, when supplied, outcome) match. Evaluating the code
at the `test_matching_events` input — service `fornax`, no outcome —
the function raises `TypeError` at its two-argument call to the
three-parameter `send_http_request` and never returns a list on any
input; the filter of lines 117-121 is dead code (and even with the
argument supplied, the `None` that `send_http_request` returns could
not be iterated). `test_matching_events` asserts the claimed filtering
and passes only because it mocks `send_http_request` to return the
parsed body, so the claim is the intent and the code the slip. -/
theorem C8_matching_events_raises :
    matching_events (PyVal.str "package_id") (PyVal.str "fornax") "baseurl" none
      = Except.error missingDataArg := by
  decide

/-- Claim C9: `get_config` is a total function (it never propagates an
exception). When the parameter-store call itself fails, nothing was
accumulated and the empty mapping is returned; when it succeeds with
named parameters, the result is exactly the spec's mapping keyed by the
final `/`-separated segment of each name; and when the accumulation loop
fails midway (a parameter without a `Name`), the mapping accumulated
before the failure is returned. -/
theorem C9_get_config_refines_spec (params : List (String × String)) :
    (∀ e : PyErr, get_config (Except.error e) = []) ∧
    get_config (Except.ok (params.map (fun p => (some p.1, p.2))))
      = get_config_spec params ∧
    (∀ (v : String) (rest : List (Option String × String)),
      get_config (Except.ok
          (params.map (fun p => (some p.1, p.2)) ++ (none, v) :: rest))
        = get_config_spec params) := by
  refine ⟨fun e => rfl, ?_, fun v rest => ?_⟩
  · simp only [get_config, get_config_spec, get_config_loop_eq_foldl]
  · simp only [get_config, get_config_spec, get_config_loop_partial]

/-- Claim C10: two configurations whose `ZODIAC_BASEURL` values differ
only in trailing `/` characters produce identical behaviour — in
particular identical request URLs — for `update_package`,
`update_events` and `lambda_handler`, because every URL the code builds
uses the base URL stripped of trailing slashes (lines 71, 84, 95,
166). -/
theorem C10_trailing_slash_invariant (core : String) (m n : Nat) (rest : Config)
    (attributes : Attributes) (freshId : String) (publishErr : Option PyErr) :
    (update_package attributes (("ZODIAC_BASEURL", core ++ mkSlashes m) :: rest)
        = update_package attributes (("ZODIAC_BASEURL", core ++ mkSlashes n) :: rest)) ∧
    (update_events attributes (("ZODIAC_BASEURL", core ++ mkSlashes m) :: rest)
          freshId
        = update_events attributes (("ZODIAC_BASEURL", core ++ mkSlashes n) :: rest)
          freshId) ∧
    (lambda_handler attributes
          (("ZODIAC_BASEURL", core ++ mkSlashes m) :: rest) freshId publishErr
        = lambda_handler attributes
          (("ZODIAC_BASEURL", core ++ mkSlashes n) :: rest) freshId publishErr) := by
  have h : rstripSlash (core ++ mkSlashes m) = rstripSlash (core ++ mkSlashes n) := by
    rw [rstripSlash_mkSlashes, rstripSlash_mkSlashes]
  exact ⟨update_package_base_congr _ _ rest h attributes,
    update_events_base_congr _ _ rest h attributes freshId,
    lambda_handler_base_congr _ _ rest h attributes freshId publishErr⟩
